import Mathlib

/-!
Verification of the authentication-flow execution engine (flow planner,
flow plan, markers, executor) and of the application-gateway provider.

The flow-engine definitions are modelled from the specification: the
planner/executor/marker/stage modules themselves are not part of this
source slice (only their test suite, src/authentik/flows/tests/test_views.py,
is), so each such definition carries a doc comment starting with
"Modelled from the spec:".  String constants that the test suite pins
(component tags, redirect targets) are taken from the tests.

The application-gateway provider (src/passbook/providers/app_gw/models.py)
is embedded directly from its source.
-/

namespace Flows

/-- A stage implementation as the engine sees it: an identifying name and the
component tag its challenge renders with.  The engine treats stages as opaque
handlers behind the render/validate capability contract. -/
structure Stage where
  name : String
  component : String
deriving DecidableEq, Repr

/-- A flow's stage binding (FlowStageBinding in the tests): its order, the
`reEvaluatePolicies` flag, the optional retry budget, whether any policies
are attached to it, and the bound stage. -/
structure Binding where
  id : Nat
  order : Nat
  reEvaluatePolicies : Bool := false
  reEvaluateOnFailureLimit : Option Nat := none
  hasPolicies : Bool := false
  stage : Stage
deriving DecidableEq, Repr

/-- Modelled from the spec: the marker module is not in this slice.  Marker is
the closed tagged union Plain / Reevaluate / Retry (with remaining budget),
attached 1:1 to each plan entry. -/
inductive Marker where
  | plain
  | reevaluate
  | retry (remaining : Nat)
deriving DecidableEq, Repr

/-- A user record; `pk = none` means the value is an unsaved, display-only
projection that does not correspond to any persisted record. -/
structure User where
  pk : Option Nat := none
  username : String
deriving DecidableEq, Repr

/-- The plan's shared mutable context; only the designated keys the engine
itself reads are modelled (the pending-user identifier and the pending user,
i.e. PLAN_CONTEXT_PENDING_USER_IDENTIFIER and PLAN_CONTEXT_PENDING_USER). -/
structure Context where
  pendingUserIdentifier : Option String := none
  pendingUser : Option User := none
deriving DecidableEq, Repr

/-- A configured flow: primary key, slug, background URL, and its configured
stage bindings in ascending order. -/
structure Flow where
  pk : String
  slug : String
  background : String := ""
  bindings : List Binding := []
deriving DecidableEq, Repr

/-- The session-scoped flow plan: the identifier of the flow it was built
for, the ordered queue of (binding, marker) pairs, and the shared context. -/
structure FlowPlan where
  flow_pk : String
  queue : List (Binding × Marker) := []
  context : Context := {}
deriving DecidableEq, Repr

/-- The plan's bindings in queue order (the `bindings` accessor asserted on
by the tests). -/
def FlowPlan.bindings (p : FlowPlan) : List Binding := p.queue.map Prod.fst

/-- The plan's markers in queue order (the `markers` accessor asserted on by
the tests). -/
def FlowPlan.markers (p : FlowPlan) : List Marker := p.queue.map Prod.snd

/-- Whether a binding passes policy filtering under the policy-engine verdict
`eval`: a binding with no attached policies passes unconditionally. -/
def bindingPasses (eval : Binding → Bool) (b : Binding) : Bool :=
  if b.hasPolicies then eval b else true

/-- Modelled from the spec: marker assignment at plan-build time — Reevaluate
if `reEvaluatePolicies` is set, else Retry if a retry limit is configured,
else Plain. -/
def markerFor (b : Binding) : Marker :=
  if b.reEvaluatePolicies then Marker.reevaluate
  else
    match b.reEvaluateOnFailureLimit with
    | some n => Marker.retry n
    | none => Marker.plain

/-- Modelled from the spec: the planner's walk over the configured bindings in
ascending order — a failing binding is skipped entirely, a passing binding is
appended with its marker. -/
def buildQueue (eval : Binding → Bool) : List Binding → List (Binding × Marker)
  | [] => []
  | b :: bs =>
    if bindingPasses eval b then (b, markerFor b) :: buildQueue eval bs
    else buildQueue eval bs

/-- The planner's failure conditions: no stage survives policy filtering
(non-applicable), or the flow has no configured stages at all (empty flow). -/
inductive PlanError where
  | nonApplicable
  | emptyFlow
deriving DecidableEq, Repr

/-- Modelled from the spec: the planner module is not in this slice.
`plan` seeds the context with the caller-supplied default context, walks the
configured bindings, and fails with the empty-flow condition when the flow
has zero configured bindings, or with the non-applicable condition when
bindings exist but none survives policy filtering. -/
def FlowPlanner.plan (flow : Flow) (eval : Binding → Bool) (defaultContext : Context) :
    Except PlanError FlowPlan :=
  if flow.bindings = [] then Except.error PlanError.emptyFlow
  else
    match buildQueue eval flow.bindings with
    | [] => Except.error PlanError.nonApplicable
    | q => Except.ok { flow_pk := flow.pk, queue := q, context := defaultContext }

/-- The component tag of the access-denied terminal challenge, as pinned by
test_invalid_non_applicable_flow. -/
def accessDeniedComponent : String := "ak-stage-access-denied"

/-- The default post-flow redirect destination, as pinned by the tests. -/
def rootRedirectUrl : String := "authentik_core:root-redirect"

/-- The cancel endpoint carried in every challenge's flow info. -/
def cancelUrl : String := "authentik_flows:cancel"

/-- Modelled from the spec: the error message carried by the access-denied
challenge for the non-applicable condition (the exceptions module is not in
this slice; the tests only require the message to be carried through). -/
def flowNonApplicableMessage : String :=
  "Flow does not apply to current user (denied by policy)."

/-- Modelled from the spec: the error detail attached when a stage validation
fails and the same stage's challenge is re-rendered. -/
def stageValidationErrorMessage : String := "Invalid input."

/-- The executor's own URL for a flow (the target of the redirect issued
after a successful pop with stages remaining). -/
def execUrl (flow : Flow) : String := "authentik_api:flow-executor:" ++ flow.slug

/-- The challenge type enum of the challenge/response contract. -/
inductive ChallengeType where
  | native
  | redirect
  | shell
deriving DecidableEq, Repr

/-- The flow info block carried by every stage challenge. -/
structure FlowInfo where
  background : String
  cancel_url : String
  title : String
deriving DecidableEq, Repr

/-- The structured challenge payload of the challenge/response contract. -/
structure Challenge where
  component : String
  type : ChallengeType
  flow_info : Option FlowInfo := none
  error_message : Option String := none
deriving DecidableEq, Repr

/-- A response of the executor: either a challenge payload (HTTP 200) or an
HTTP redirect. -/
inductive Response where
  | challenge (c : Challenge)
  | redirect (url : String)
deriving DecidableEq, Repr

/-- The component tag of a response, when it is a challenge. -/
def Response.component : Response → Option String
  | Response.challenge c => some c.component
  | Response.redirect _ => none

/-- The flow info block for a given flow. -/
def flowInfoOf (flow : Flow) : FlowInfo :=
  { background := flow.background, cancel_url := cancelUrl, title := "" }

/-- Modelled from the spec: rendering a stage's challenge (GET). -/
def renderChallenge (flow : Flow) (b : Binding) : Response :=
  Response.challenge
    { component := b.stage.component, type := ChallengeType.native,
      flow_info := some (flowInfoOf flow) }

/-- Modelled from the spec: re-rendering the same stage's challenge with
error detail attached after a failed validation. -/
def renderStageError (flow : Flow) (b : Binding) : Response :=
  Response.challenge
    { component := b.stage.component, type := ChallengeType.native,
      flow_info := some (flowInfoOf flow),
      error_message := some stageValidationErrorMessage }

/-- Modelled from the spec: the access-denied terminal challenge rendered for
the non-applicable condition, carrying the error message and flow info. -/
def renderAccessDenied (flow : Flow) : Response :=
  Response.challenge
    { component := accessDeniedComponent, type := ChallengeType.native,
      flow_info := some (flowInfoOf flow),
      error_message := some flowNonApplicableMessage }

/-- The HTTP method of a request, as far as the executor distinguishes it:
GET renders the current head's challenge, POST attempts its validation. -/
inductive Method where
  | get
  | post
deriving DecidableEq, Repr

/-- The session as the engine sees it: the single plan slot. -/
structure Session where
  plan : Option FlowPlan := none
deriving DecidableEq, Repr

/-- The outcome of handling one request: the response, the session as
persisted at the end of the request, and the number of logical
cancel-and-rebuild cycles (stale-plan removals) the request performed. -/
structure ExecOutcome where
  response : Response
  session : Session
  cancelAndRebuildCycles : Nat
deriving DecidableEq, Repr

/-- Modelled from the spec: head-of-queue marker processing.  A Reevaluate
marker re-runs only that binding's policies against the current context: if
it now fails the entry is removed and the new head is processed in turn; if
it still passes the marker is replaced with Plain.  Plain and Retry heads are
dispatched directly. -/
def reevalQueue (eval : Binding → Bool) : List (Binding × Marker) → List (Binding × Marker)
  | [] => []
  | (b, m) :: rest =>
    match m with
    | Marker.reevaluate =>
      if bindingPasses eval b then (b, Marker.plain) :: rest
      else reevalQueue eval rest
    | _ => (b, m) :: rest

/-- Modelled from the spec: dispatch on a loaded, matching plan.  The head is
re-evaluated first; an empty queue finalizes the flow (plan discarded,
redirect to the default destination); a GET renders the head's challenge
without writing the rebuilt queue back; a POST validates the head — on
success the head is popped and the updated plan persisted (finalizing when
the queue empties), on failure the same stage is re-rendered with error
detail and the session is left untouched. -/
def dispatchPlan (flow : Flow) (eval validate : Binding → Bool) (method : Method)
    (session : Session) (p : FlowPlan) : Response × Session :=
  match reevalQueue eval p.queue with
  | [] => (Response.redirect rootRedirectUrl, { plan := none })
  | (b, _) :: rest =>
    match method with
    | Method.get => (renderChallenge flow b, session)
    | Method.post =>
      if validate b then
        match rest with
        | [] => (Response.redirect rootRedirectUrl, { plan := none })
        | _ :: _ =>
          (Response.redirect (execUrl flow), { plan := some { p with queue := rest } })
      else (renderStageError flow b, session)

/-- Modelled from the spec: plan initiation when no usable plan is loaded.
The planner runs; the non-applicable condition renders the access-denied
terminal challenge, the empty-flow condition redirects to the default
destination, and a successfully built plan is stored in the session and
dispatched. -/
def initiate (flow : Flow) (eval validate : Binding → Bool) (defaultContext : Context)
    (method : Method) : Response × Session :=
  match FlowPlanner.plan flow eval defaultContext with
  | Except.error PlanError.nonApplicable => (renderAccessDenied flow, { plan := none })
  | Except.error PlanError.emptyFlow => (Response.redirect rootRedirectUrl, { plan := none })
  | Except.ok p => dispatchPlan flow eval validate method { plan := some p } p

/-- Attach the cancel-and-rebuild cycle count to a response/session pair. -/
def withCancels (rs : Response × Session) (k : Nat) : ExecOutcome :=
  { response := rs.1, session := rs.2, cancelAndRebuildCycles := k }

/-- Modelled from the spec: the executor's per-request entry point.
A session plan owned by a different flow
is cancelled (exactly one logical cancel-and-rebuild cycle: session slot and
cached plan both cleared) and the planner is re-invoked; a matching plan is
dispatched; no plan invokes the planner. -/
def handleRequest (flow : Flow) (eval validate : Binding → Bool) (defaultContext : Context)
    (method : Method) (session : Session) : ExecOutcome :=
  match session.plan with
  | some p =>
    if p.flow_pk = flow.pk then
      withCancels (dispatchPlan flow eval validate method session p) 0
    else
      withCancels (initiate flow eval validate defaultContext method) 1
  | none => withCancels (initiate flow eval validate defaultContext method) 0

/-- Modelled from the spec: StageView.get_pending_user.  When the designated
pending-user-identifier context key is present and the for-display variant is
requested, a lightweight unsaved projection carrying that identifier is
returned; otherwise the pending-user context key is used, falling back to the
authenticated request principal.  The persisted user store is passed and
returned explicitly so that "does not touch persistence" is a provable frame
property. -/
def get_pending_user (store : List User) (ctx : Context) (requestUser : User)
    (for_display : Bool) : User × List User :=
  match ctx.pendingUserIdentifier, for_display with
  | some ident, true => ({ pk := none, username := ident }, store)
  | _, _ =>
    match ctx.pendingUser with
    | some u => (u, store)
    | none => (requestUser, store)

end Flows

namespace AppGw

/-- string.ascii_uppercase from the Python standard library. -/
def ascii_uppercase : String := "ABCDEFGHIJKLMNOPQRSTUVWXYZ"

/-- string.digits from the Python standard library. -/
def digits : String := "0123456789"

/-- The alphabet the cookie secret is drawn from:
string.ascii_uppercase + string.digits. -/
def secretAlphabet : List Char := (ascii_uppercase ++ digits).toList

/-- The provider record of src/passbook/providers/app_gw/models.py (the ORM
base and the OIDC client reference are external collaborators). -/
structure ApplicationGatewayProvider where
  name : String
  host : String
deriving DecidableEq, Repr

/-- The context dictionary returned alongside the template name. -/
structure SetupContext where
  provider : ApplicationGatewayProvider
  cookie_secret : String
  version : String
deriving DecidableEq, Repr

/-- The 50 draws of SystemRandom().choice over the alphabet; the random
source is an oracle `choice` giving each draw's index into the alphabet. -/
def cookieSecret (choice : Nat → Fin secretAlphabet.length) : String :=
  String.mk ((List.range 50).map fun i => secretAlphabet.get (choice i))

/-- ApplicationGatewayProvider.html_setup_urls from
src/passbook/providers/app_gw/models.py: returns the template name
"app_gw/setup_modal.html" and a context holding the provider, a fresh
50-character cookie secret, and the package version (the imported
passbook.__version__, passed in as a parameter). -/
def html_setup_urls (p : ApplicationGatewayProvider) (version : String)
    (choice : Nat → Fin secretAlphabet.length) : String × SetupContext :=
  ("app_gw/setup_modal.html",
   { provider := p, cookie_secret := cookieSecret choice, version := version })

end AppGw

namespace Flows

/-- A flow all of whose configured bindings fail policy filtering builds an
empty queue. -/
theorem buildQueue_eq_nil (eval : Binding → Bool) (bs : List Binding)
    (h : ∀ b ∈ bs, bindingPasses eval b = false) : buildQueue eval bs = [] := by
  induction bs with
  | nil => rfl
  | cons b rest ih =>
    have hb : bindingPasses eval b = false := h b (by simp)
    simp only [buildQueue, hb, Bool.false_eq_true, if_false]
    exact ih fun x hx => h x (by simp [hx])

/-- A successfully built plan carries the caller-supplied default context. -/
theorem plan_context (flow : Flow) (eval : Binding → Bool) (ctx : Context)
    (p : FlowPlan) (h : FlowPlanner.plan flow eval ctx = Except.ok p) :
    p.context = ctx := by
  unfold FlowPlanner.plan at h
  split at h
  · exact absurd h (by simp)
  · split at h
    · exact absurd h (by simp)
    · injection h with h
      subst h
      rfl

/-- C8: re-evaluation never re-inserts removed entries and never re-orders
the survivors.  The queue splits as removed ++ surviving where every removed
entry was Reevaluate-marked and failing, the surviving bindings come out in
their original relative order, the markers of all surviving entries beyond
the head are untouched, and no entry is added (the result has exactly the
surviving length).  The surviving head itself keeps its binding; only its
marker may have been replaced by Plain when it was a passing Reevaluate
entry. -/
theorem reevaluation_preserves_order (eval : Binding → Bool)
    (q : List (Binding × Marker)) :
    ∃ removed surviving : List (Binding × Marker),
      q = removed ++ surviving ∧
      (∀ e ∈ removed, e.2 = Marker.reevaluate ∧ bindingPasses eval e.1 = false) ∧
      (reevalQueue eval q).map Prod.fst = surviving.map Prod.fst ∧
      ((reevalQueue eval q).map Prod.snd).tail = (surviving.map Prod.snd).tail ∧
      (reevalQueue eval q).length = surviving.length := by
  induction q with
  | nil =>
    exact ⟨[], [], by simp, by simp, by simp [reevalQueue], by simp [reevalQueue],
      by simp [reevalQueue]⟩
  | cons e rest ih =>
    obtain ⟨b, m⟩ := e
    cases m with
    | plain =>
      exact ⟨[], (b, Marker.plain) :: rest, by simp, by simp, by simp [reevalQueue],
        by simp [reevalQueue], by simp [reevalQueue]⟩
    | retry n =>
      exact ⟨[], (b, Marker.retry n) :: rest, by simp, by simp, by simp [reevalQueue],
        by simp [reevalQueue], by simp [reevalQueue]⟩
    | reevaluate =>
      cases hp : bindingPasses eval b with
      | true =>
        exact ⟨[], (b, Marker.reevaluate) :: rest, by simp, by simp,
          by simp [reevalQueue, hp], by simp [reevalQueue, hp],
          by simp [reevalQueue, hp]⟩
      | false =>
        obtain ⟨rem, surv, hsplit, hrem, hfst, hsnd, hlen⟩ := ih
        refine ⟨(b, Marker.reevaluate) :: rem, surv, by simp [hsplit], ?_, ?_, ?_, ?_⟩
        · intro x hx
          rcases List.mem_cons.mp hx with hx | hx
          · subst hx
            exact ⟨rfl, hp⟩
          · exact hrem x hx
        · simpa [reevalQueue, hp] using hfst
        · simpa [reevalQueue, hp] using hsnd
        · simpa [reevalQueue, hp] using hlen

/-- A concrete dummy stage, as the test suite configures them. -/
def sampleStage (n : Nat) : Stage :=
  { name := "dummy" ++ toString n, component := "ak-stage-dummy" }

/-- A concrete binding with no attached policies. -/
def bindPlain (n : Nat) : Binding := { id := n, order := n, stage := sampleStage n }

/-- A concrete binding with re-evaluation enabled and a policy attached. -/
def bindReeval (n : Nat) : Binding :=
  { id := n, order := n, reEvaluatePolicies := true, hasPolicies := true,
    stage := sampleStage n }

/-- A concrete policy-engine verdict that fails every binding. -/
def evalFalse : Binding → Bool := fun _ => false

/-- A concrete verdict (also used as a stage-validation result) that passes
every binding. -/
def evalTrue : Binding → Bool := fun _ => true

/-- A concrete flow whose only binding carries a policy (so that a failing
verdict filters every stage out). -/
def sampleFlowNA : Flow :=
  { pk := "f1", slug := "test-non-applicable", bindings := [bindReeval 1] }

/-- A concrete flow with zero configured stage bindings. -/
def sampleFlowEmpty : Flow := { pk := "f0", slug := "test-empty", bindings := [] }

/-- A concrete flow with a single policy-free binding. -/
def sampleFlowOne : Flow :=
  { pk := "f2", slug := "test-one", bindings := [bindPlain 1] }

/-- C1 (amended): for every flow whose configured bindings all fail policy
filtering, a GET does not produce an empty-queue redirect: planning fails
with the non-applicable condition and the executor responds with the
access-denied terminal challenge, whose component tag is
"ak-stage-access-denied", carrying the error message and the flow info. -/
theorem executor_nonapplicable_access_denied (flow : Flow)
    (eval validate : Binding → Bool) (ctx : Context)
    (hne : flow.bindings ≠ [])
    (hfail : ∀ b ∈ flow.bindings, bindingPasses eval b = false) :
    FlowPlanner.plan flow eval ctx = Except.error PlanError.nonApplicable ∧
    (handleRequest flow eval validate ctx Method.get { plan := none }).response =
      Response.challenge
        { component := "ak-stage-access-denied", type := ChallengeType.native,
          flow_info := some (flowInfoOf flow),
          error_message := some flowNonApplicableMessage } ∧
    ∀ url, (handleRequest flow eval validate ctx Method.get { plan := none }).response ≠
      Response.redirect url := by
  have hq := buildQueue_eq_nil eval flow.bindings hfail
  have hplan : FlowPlanner.plan flow eval ctx = Except.error PlanError.nonApplicable := by
    simp [FlowPlanner.plan, hne, hq]
  refine ⟨hplan, ?_, ?_⟩
  · simp [handleRequest, withCancels, initiate, hplan, renderAccessDenied,
      accessDeniedComponent]
  · intro url
    simp [handleRequest, withCancels, initiate, hplan, renderAccessDenied]

/-- Witness for the amended C1 at a concrete one-binding flow under an
all-failing policy verdict. -/
theorem executor_nonapplicable_access_denied_witness :
    sampleFlowNA.bindings ≠ [] ∧
    (∀ b ∈ sampleFlowNA.bindings, bindingPasses evalFalse b = false) ∧
    (handleRequest sampleFlowNA evalFalse evalTrue {} Method.get
        { plan := none }).response =
      Response.challenge
        { component := "ak-stage-access-denied", type := ChallengeType.native,
          flow_info := some (flowInfoOf sampleFlowNA),
          error_message := some flowNonApplicableMessage } := by
  refine ⟨by decide, by decide, ?_⟩
  exact (executor_nonapplicable_access_denied sampleFlowNA evalFalse evalTrue {}
    (by decide) (by decide)).2.1

/-- C1 counterexample: at the concrete non-applicable flow the access-denied
challenge carries the component tag "ak-stage-access-denied" (as the test
suite pins), not "access-denied" as the claim states. -/
theorem executor_nonapplicable_component_counterexample :
    (handleRequest sampleFlowNA evalFalse evalTrue {} Method.get
        { plan := none }).response.component = some "ak-stage-access-denied" ∧
    ¬ (handleRequest sampleFlowNA evalFalse evalTrue {} Method.get
        { plan := none }).response.component = some "access-denied" := by
  exact ⟨by decide, by decide⟩

/-- C2: a request arriving with a session plan whose owning-flow identifier
differs from the requested flow performs exactly one cancel-and-rebuild
cycle — whatever the stale plan held in its queue, markers and context —
and then behaves exactly like a request that arrived with no plan at all,
which performs zero such cycles. -/
theorem executor_stale_plan_one_cancel (flow : Flow) (eval validate : Binding → Bool)
    (ctx : Context) (method : Method) (stale : FlowPlan)
    (hne : stale.flow_pk ≠ flow.pk) :
    (handleRequest flow eval validate ctx method
        { plan := some stale }).cancelAndRebuildCycles = 1 ∧
    (handleRequest flow eval validate ctx method { plan := some stale }).response =
      (handleRequest flow eval validate ctx method { plan := none }).response ∧
    (handleRequest flow eval validate ctx method { plan := some stale }).session =
      (handleRequest flow eval validate ctx method { plan := none }).session ∧
    (handleRequest flow eval validate ctx method
        { plan := none }).cancelAndRebuildCycles = 0 := by
  refine ⟨?_, ?_, ?_, ?_⟩ <;> simp [handleRequest, hne, withCancels]

/-- Witness for C2 at a concrete stale plan holding three entries with three
different markers. -/
theorem executor_stale_plan_one_cancel_witness :
    ("other" : String) ≠ sampleFlowOne.pk ∧
    (handleRequest sampleFlowOne evalTrue evalTrue {} Method.get
        { plan := some { flow_pk := "other",
                         queue := [(bindPlain 1, Marker.plain),
                                   (bindReeval 2, Marker.reevaluate),
                                   (bindPlain 3, Marker.retry 2)],
                         context := {} } }).cancelAndRebuildCycles = 1 := by
  refine ⟨by decide, ?_⟩
  exact (executor_stale_plan_one_cancel sampleFlowOne evalTrue evalTrue {} Method.get
    { flow_pk := "other",
      queue := [(bindPlain 1, Marker.plain), (bindReeval 2, Marker.reevaluate),
                (bindPlain 3, Marker.retry 2)],
      context := {} } (by decide)).1

/-- C6 (amended): for every flow with zero configured stage bindings the
built queue is empty and planning signals the distinct empty-flow condition
(an EmptyFlowException in the source, not the non-applicable error); a GET
to the executor responds with a redirect to the default post-flow
destination, with no plan left in the session and no error surfaced. -/
theorem executor_empty_flow_redirect (flow : Flow) (eval validate : Binding → Bool)
    (cdef : Context) (hempty : flow.bindings = []) :
    buildQueue eval flow.bindings = [] ∧
    FlowPlanner.plan flow eval cdef = Except.error PlanError.emptyFlow ∧
    (handleRequest flow eval validate cdef Method.get { plan := none }).response =
      Response.redirect rootRedirectUrl ∧
    (handleRequest flow eval validate cdef Method.get { plan := none }).session =
      { plan := none } := by
  have hb : buildQueue eval flow.bindings = [] := by simp [hempty, buildQueue]
  have hplan : FlowPlanner.plan flow eval cdef = Except.error PlanError.emptyFlow := by
    simp [FlowPlanner.plan, hempty]
  exact ⟨hb, hplan, by simp [handleRequest, withCancels, initiate, hplan],
    by simp [handleRequest, withCancels, initiate, hplan]⟩

/-- Witness for the amended C6 at the concrete zero-binding flow. -/
theorem executor_empty_flow_redirect_witness :
    sampleFlowEmpty.bindings = [] ∧
    (handleRequest sampleFlowEmpty evalTrue evalTrue {} Method.get
        { plan := none }).response = Response.redirect rootRedirectUrl := by
  refine ⟨by decide, ?_⟩
  exact (executor_empty_flow_redirect sampleFlowEmpty evalTrue evalTrue {}
    (by decide)).2.2.1

/-- C6 counterexample: for the concrete zero-binding flow, planning does not
yield a plan with an empty queue — it signals the empty-flow error
condition instead (no plan value is produced at all). -/
theorem planner_empty_flow_counterexample :
    FlowPlanner.plan sampleFlowEmpty evalTrue {} = Except.error PlanError.emptyFlow ∧
    (FlowPlanner.plan sampleFlowEmpty evalTrue {}).toOption = none ∧
    ¬ FlowPlanner.plan sampleFlowEmpty evalTrue {} =
        Except.ok { flow_pk := sampleFlowEmpty.pk, queue := [], context := {} } := by
  have h1 : FlowPlanner.plan sampleFlowEmpty evalTrue {} =
      Except.error PlanError.emptyFlow := rfl
  refine ⟨h1, by rw [h1]; rfl, by rw [h1]; simp⟩

/-- C3: when the two head entries of a loaded plan are both
Reevaluate-marked and both policies now fail, a single request removes both
entries before any challenge is rendered, and the challenge produced is the
one for the first surviving entry. -/
theorem executor_reevaluate_removes_consecutive (flow : Flow)
    (eval validate : Binding → Bool) (cdef ctx : Context) (b1 b2 b : Binding)
    (m : Marker) (rest tail : List (Binding × Marker))
    (h1 : bindingPasses eval b1 = false) (h2 : bindingPasses eval b2 = false)
    (hsurv : reevalQueue eval rest = (b, m) :: tail) :
    reevalQueue eval ((b1, Marker.reevaluate) :: (b2, Marker.reevaluate) :: rest) =
      reevalQueue eval rest ∧
    (handleRequest flow eval validate cdef Method.get
        { plan := some { flow_pk := flow.pk,
                         queue := (b1, Marker.reevaluate) ::
                                  (b2, Marker.reevaluate) :: rest,
                         context := ctx } }).response = renderChallenge flow b := by
  have hdrop : reevalQueue eval
      ((b1, Marker.reevaluate) :: (b2, Marker.reevaluate) :: rest) =
      reevalQueue eval rest := by
    simp [reevalQueue, h1, h2]
  refine ⟨hdrop, ?_⟩
  simp [handleRequest, withCancels, dispatchPlan, hdrop, hsurv]

/-- Witness for C3: two failing Reevaluate entries ahead of a Plain entry;
the single GET renders the challenge of the surviving third stage. -/
theorem executor_reevaluate_removes_consecutive_witness :
    bindingPasses evalFalse (bindReeval 2) = false ∧
    bindingPasses evalFalse (bindReeval 3) = false ∧
    reevalQueue evalFalse [(bindPlain 4, Marker.plain)] =
      (bindPlain 4, Marker.plain) :: [] ∧
    (handleRequest sampleFlowOne evalFalse evalTrue {} Method.get
        { plan := some { flow_pk := sampleFlowOne.pk,
                         queue := (bindReeval 2, Marker.reevaluate) ::
                                  (bindReeval 3, Marker.reevaluate) ::
                                  [(bindPlain 4, Marker.plain)],
                         context := {} } }).response =
      renderChallenge sampleFlowOne (bindPlain 4) := by
  refine ⟨by decide, by decide, by decide, ?_⟩
  exact (executor_reevaluate_removes_consecutive sampleFlowOne evalFalse evalTrue {} {}
    (bindReeval 2) (bindReeval 3) (bindPlain 4) Marker.plain
    [(bindPlain 4, Marker.plain)] [] (by decide) (by decide) (by decide)).2

/-- C4: the GET/POST re-evaluation asymmetry — a GET that triggers
re-evaluation computes and renders the new head challenge while leaving the
session-stored plan exactly as it was; a POST performing the same
re-evaluation (whose validation of the new head succeeds) persists the
rebuilt plan. -/
theorem executor_get_does_not_persist_reevaluation (flow : Flow)
    (eval validate : Binding → Bool) (cdef : Context) (p : FlowPlan)
    (b1 b : Binding) (m : Marker) (rest tail : List (Binding × Marker))
    (hpk : p.flow_pk = flow.pk)
    (hq : p.queue = (b1, Marker.reevaluate) :: rest)
    (h1 : bindingPasses eval b1 = false)
    (hsurv : reevalQueue eval rest = (b, m) :: tail)
    (hval : validate b = true)
    (htail : tail ≠ []) :
    (handleRequest flow eval validate cdef Method.get { plan := some p }).response =
      renderChallenge flow b ∧
    (handleRequest flow eval validate cdef Method.get { plan := some p }).session =
      { plan := some p } ∧
    (handleRequest flow eval validate cdef Method.post { plan := some p }).session =
      { plan := some { p with queue := tail } } := by
  obtain ⟨e, ts, rfl⟩ := List.exists_cons_of_ne_nil htail
  have hdrop : reevalQueue eval p.queue = (b, m) :: e :: ts := by
    simp [hq, reevalQueue, h1, hsurv]
  refine ⟨?_, ?_, ?_⟩ <;>
    simp [handleRequest, withCancels, dispatchPlan, hpk, hdrop, hval]

/-- Witness for C4: a failing Reevaluate head ahead of two Plain entries;
the GET leaves the session plan untouched, the POST persists the rebuilt,
popped plan. -/
theorem executor_get_does_not_persist_reevaluation_witness :
    bindingPasses evalFalse (bindReeval 1) = false ∧
    (handleRequest sampleFlowOne evalFalse evalTrue {} Method.get
        { plan := some { flow_pk := sampleFlowOne.pk,
                         queue := (bindReeval 1, Marker.reevaluate) ::
                                  [(bindPlain 2, Marker.plain),
                                   (bindPlain 3, Marker.plain)],
                         context := {} } }).session =
      { plan := some { flow_pk := sampleFlowOne.pk,
                       queue := (bindReeval 1, Marker.reevaluate) ::
                                [(bindPlain 2, Marker.plain),
                                 (bindPlain 3, Marker.plain)],
                       context := {} } } ∧
    (handleRequest sampleFlowOne evalFalse evalTrue {} Method.post
        { plan := some { flow_pk := sampleFlowOne.pk,
                         queue := (bindReeval 1, Marker.reevaluate) ::
                                  [(bindPlain 2, Marker.plain),
                                   (bindPlain 3, Marker.plain)],
                         context := {} } }).session =
      { plan := some { flow_pk := sampleFlowOne.pk,
                       queue := [(bindPlain 3, Marker.plain)],
                       context := {} } } := by
  refine ⟨by decide, ?_, ?_⟩
  · exact (executor_get_does_not_persist_reevaluation sampleFlowOne evalFalse evalTrue {}
      { flow_pk := sampleFlowOne.pk,
        queue := (bindReeval 1, Marker.reevaluate) ::
                 [(bindPlain 2, Marker.plain), (bindPlain 3, Marker.plain)],
        context := {} }
      (bindReeval 1) (bindPlain 2) Marker.plain
      [(bindPlain 2, Marker.plain), (bindPlain 3, Marker.plain)]
      [(bindPlain 3, Marker.plain)]
      (by decide) (by decide) (by decide) (by decide) (by decide) (by decide)).2.1
  · exact (executor_get_does_not_persist_reevaluation sampleFlowOne evalFalse evalTrue {}
      { flow_pk := sampleFlowOne.pk,
        queue := (bindReeval 1, Marker.reevaluate) ::
                 [(bindPlain 2, Marker.plain), (bindPlain 3, Marker.plain)],
        context := {} }
      (bindReeval 1) (bindPlain 2) Marker.plain
      [(bindPlain 2, Marker.plain), (bindPlain 3, Marker.plain)]
      [(bindPlain 3, Marker.plain)]
      (by decide) (by decide) (by decide) (by decide) (by decide) (by decide)).2.2

/-- C5: on a loaded plan with a Plain head, a POST whose stage validation
succeeds pops exactly the head entry (bindings and markers each lose their
first element, the queue shrinks by one) and persists the updated plan;
a POST whose validation fails mutates neither the queue nor the markers of
the session-stored plan and re-renders the same stage with error detail. -/
theorem executor_validation_frame (flow : Flow) (eval validate : Binding → Bool)
    (cdef : Context) (p : FlowPlan) (b : Binding) (rest : List (Binding × Marker))
    (hpk : p.flow_pk = flow.pk)
    (hq : p.queue = (b, Marker.plain) :: rest)
    (hrest : rest ≠ []) :
    (validate b = true →
      (handleRequest flow eval validate cdef Method.post { plan := some p }).session =
        { plan := some { p with queue := rest } } ∧
      FlowPlan.bindings { p with queue := rest } = p.bindings.tail ∧
      FlowPlan.markers { p with queue := rest } = p.markers.tail ∧
      rest.length + 1 = p.queue.length) ∧
    (validate b = false →
      (handleRequest flow eval validate cdef Method.post { plan := some p }).session =
        { plan := some p } ∧
      (handleRequest flow eval validate cdef Method.post { plan := some p }).response =
        renderStageError flow b) := by
  obtain ⟨e, ts, rfl⟩ := List.exists_cons_of_ne_nil hrest
  have hdrop : reevalQueue eval p.queue = (b, Marker.plain) :: e :: ts := by
    simp [hq, reevalQueue]
  constructor
  · intro hv
    refine ⟨?_, ?_, ?_, ?_⟩
    · simp [handleRequest, withCancels, dispatchPlan, hpk, hdrop, hv]
    · simp [FlowPlan.bindings, hq]
    · simp [FlowPlan.markers, hq]
    · simp [hq]
  · intro hv
    constructor <;> simp [handleRequest, withCancels, dispatchPlan, hpk, hdrop, hv]

/-- Witness for C5 on a concrete two-entry plan: the successful POST pops
exactly the head and persists; with an all-failing validator, the session
plan is unchanged and the same stage is re-rendered with error detail. -/
theorem executor_validation_frame_witness :
    ((bindPlain 1, Marker.plain) :: [(bindPlain 2, Marker.plain)] : List (Binding × Marker)) ≠ [] ∧
    (handleRequest sampleFlowOne evalTrue evalTrue {} Method.post
        { plan := some { flow_pk := sampleFlowOne.pk,
                         queue := (bindPlain 1, Marker.plain) ::
                                  [(bindPlain 2, Marker.plain)],
                         context := {} } }).session =
      { plan := some { flow_pk := sampleFlowOne.pk,
                       queue := [(bindPlain 2, Marker.plain)],
                       context := {} } } ∧
    (handleRequest sampleFlowOne evalTrue evalFalse {} Method.post
        { plan := some { flow_pk := sampleFlowOne.pk,
                         queue := (bindPlain 1, Marker.plain) ::
                                  [(bindPlain 2, Marker.plain)],
                         context := {} } }).session =
      { plan := some { flow_pk := sampleFlowOne.pk,
                       queue := (bindPlain 1, Marker.plain) ::
                                [(bindPlain 2, Marker.plain)],
                       context := {} } } := by
  refine ⟨by decide, ?_, ?_⟩
  · exact ((executor_validation_frame sampleFlowOne evalTrue evalTrue {}
      { flow_pk := sampleFlowOne.pk,
        queue := (bindPlain 1, Marker.plain) :: [(bindPlain 2, Marker.plain)],
        context := {} }
      (bindPlain 1) [(bindPlain 2, Marker.plain)]
      (by decide) (by decide) (by decide)).1 (by decide)).1
  · exact ((executor_validation_frame sampleFlowOne evalTrue evalFalse {}
      { flow_pk := sampleFlowOne.pk,
        queue := (bindPlain 1, Marker.plain) :: [(bindPlain 2, Marker.plain)],
        context := {} }
      (bindPlain 1) [(bindPlain 2, Marker.plain)]
      (by decide) (by decide) (by decide)).2 (by decide)).1

/-- C7: in a flow planned as [A Plain, B Reevaluate, C Plain], the POST
completing stage A persists the advanced plan; the next request re-evaluates
B, whose passing policy converts its marker to Plain, and renders the
challenge of B — with the rebuilt queue unchanged in length, still holding
B and then C. -/
theorem executor_reevaluate_keep (flow : Flow) (eval validate : Binding → Bool)
    (cdef ctx : Context) (bA bB bC : Binding)
    (hvalA : validate bA = true) (hB : bindingPasses eval bB = true) :
    (handleRequest flow eval validate cdef Method.post
        { plan := some { flow_pk := flow.pk,
                         queue := [(bA, Marker.plain), (bB, Marker.reevaluate),
                                   (bC, Marker.plain)],
                         context := ctx } }).session =
      { plan := some { flow_pk := flow.pk,
                       queue := [(bB, Marker.reevaluate), (bC, Marker.plain)],
                       context := ctx } } ∧
    (handleRequest flow eval validate cdef Method.get
        { plan := some { flow_pk := flow.pk,
                         queue := [(bB, Marker.reevaluate), (bC, Marker.plain)],
                         context := ctx } }).response = renderChallenge flow bB ∧
    reevalQueue eval [(bB, Marker.reevaluate), (bC, Marker.plain)] =
      [(bB, Marker.plain), (bC, Marker.plain)] := by
  refine ⟨?_, ?_, ?_⟩ <;>
    simp [handleRequest, withCancels, dispatchPlan, reevalQueue, hvalA, hB]

/-- Witness for C7 with concrete stages A, B, C, a passing policy on B and a
succeeding validator. -/
theorem executor_reevaluate_keep_witness :
    evalTrue (bindPlain 1) = true ∧
    bindingPasses evalTrue (bindReeval 2) = true ∧
    (handleRequest sampleFlowOne evalTrue evalTrue {} Method.get
        { plan := some { flow_pk := sampleFlowOne.pk,
                         queue := [(bindReeval 2, Marker.reevaluate),
                                   (bindPlain 3, Marker.plain)],
                         context := {} } }).response =
      renderChallenge sampleFlowOne (bindReeval 2) := by
  refine ⟨by decide, by decide, ?_⟩
  exact (executor_reevaluate_keep sampleFlowOne evalTrue evalTrue {} {}
    (bindPlain 1) (bindReeval 2) (bindPlain 3) (by decide) (by decide)).2.1

/-- C9: when the plan context contains the pending-user identifier, the
for-display pending-user lookup on a plan the planner built returns a
lightweight display-only projection (unsaved: pk is none) whose username
equals that identifier, leaving the persisted user store untouched. -/
theorem get_pending_user_display (store : List User) (flow : Flow)
    (eval : Binding → Bool) (ctx : Context) (p : FlowPlan) (requestUser : User)
    (ident : String)
    (hplan : FlowPlanner.plan flow eval ctx = Except.ok p)
    (hident : ctx.pendingUserIdentifier = some ident) :
    (get_pending_user store p.context requestUser true).1.username = ident ∧
    (get_pending_user store p.context requestUser true).1.pk = none ∧
    (get_pending_user store p.context requestUser true).2 = store := by
  have hctx : p.context = ctx := plan_context flow eval ctx p hplan
  rw [hctx]
  simp [get_pending_user, hident]

/-- The context seeded with the pending-user identifier, as the test passes
it to the planner as default context. -/
def sampleCtx : Context := { pendingUserIdentifier := some "test-identifier" }

/-- The plan the planner builds for the one-binding flow under a passing
verdict and the seeded context. -/
def samplePlanOne : FlowPlan :=
  { flow_pk := "f2", queue := [(bindPlain 1, Marker.plain)], context := sampleCtx }

/-- Witness for C9 at the concrete seeded context and an authenticated
request user that differs from the identifier. -/
theorem get_pending_user_display_witness :
    FlowPlanner.plan sampleFlowOne evalTrue sampleCtx = Except.ok samplePlanOne ∧
    sampleCtx.pendingUserIdentifier = some "test-identifier" ∧
    (get_pending_user [] samplePlanOne.context { pk := some 7, username := "test-user" }
        true).1.username = "test-identifier" ∧
    (get_pending_user [] samplePlanOne.context { pk := some 7, username := "test-user" }
        true).2 = [] := by
  have hplan : FlowPlanner.plan sampleFlowOne evalTrue sampleCtx =
      Except.ok samplePlanOne := rfl
  have h := get_pending_user_display [] sampleFlowOne evalTrue sampleCtx samplePlanOne
    { pk := some 7, username := "test-user" } "test-identifier" hplan (by decide)
  exact ⟨hplan, by decide, h.1, h.2.2⟩

end Flows

namespace AppGw

/-- C10: every call to html_setup_urls returns the template name
"app_gw/setup_modal.html" together with a context whose cookie_secret is a
string of exactly 50 characters, each drawn from the uppercase ASCII
letters and the decimal digits. -/
theorem html_setup_urls_spec (p : ApplicationGatewayProvider) (version : String)
    (choice : Nat → Fin secretAlphabet.length) :
    (html_setup_urls p version choice).1 = "app_gw/setup_modal.html" ∧
    (html_setup_urls p version choice).2.cookie_secret.length = 50 ∧
    ∀ c ∈ (html_setup_urls p version choice).2.cookie_secret.data,
      c ∈ ascii_uppercase.data ∨ c ∈ digits.data := by
  refine ⟨rfl, ?_, ?_⟩
  · simp [html_setup_urls, cookieSecret, String.length]
  · intro c hc
    simp only [html_setup_urls, cookieSecret, String.mk, List.mem_map] at hc
    obtain ⟨i, _, rfl⟩ := hc
    have hmem : secretAlphabet.get (choice i) ∈ secretAlphabet :=
      List.get_mem secretAlphabet (choice i).1 (choice i).2
    have hall : ∀ c ∈ secretAlphabet, c ∈ ascii_uppercase.data ∨ c ∈ digits.data := by
      decide
    exact hall _ hmem

end AppGw
